import Mathlib

/-!
Verification of the Terzaghi bearing capacity engine
(`src/javascript/terzaghi.js`).

The engine is a pure computation over JavaScript numbers; inputs in the
documented domain are exact decimals, so numbers are embedded as `ℚ`.
An absent (`undefined`) groundwater depth is `Option.none`; a JavaScript
non-finite result (`Infinity`/`NaN`, arising from `x / 0` or from
arithmetic on `undefined`) is embedded as `Option.none` in the
corresponding output field.  The single failure point of the constructor,
the table access `NTerzaghi[this.phi][0]` which throws when `phi` is not
a key of the table, is embedded as `Except.error`.
-/

/-- Unit weight of water, 62.4 pcf (source line 1). -/
def unitWeightWater : ℚ := 62.4

/-- Terzaghi bearing capacity factor table (source lines 6-47):
`NTerzaghi` maps the friction angle `phi` to the triple `(Nc, Nq, Ng)`.
A JavaScript object access `NTerzaghi[phi]` with a number `phi` succeeds
exactly when `phi` equals one of the integer keys 0..41; every other
number yields `undefined`, embedded here as `none`. -/
def NTerzaghi (phi : ℚ) : Option (ℚ × ℚ × ℚ) :=
  if phi = 0 then some (5.7, 1, 0)
  else if phi = 1 then some (6, 1.1, 0.1)
  else if phi = 2 then some (6.3, 1.2, 0.1)
  else if phi = 3 then some (6.6, 1.3, 0.2)
  else if phi = 4 then some (7, 1.5, 0.3)
  else if phi = 5 then some (7.3, 1.6, 0.4)
  else if phi = 6 then some (7.7, 1.8, 0.5)
  else if phi = 7 then some (8.2, 2, 0.6)
  else if phi = 8 then some (8.6, 2.2, 0.7)
  else if phi = 9 then some (9.1, 2.4, 0.9)
  else if phi = 10 then some (9.6, 2.7, 1)
  else if phi = 11 then some (10.2, 3, 1.2)
  else if phi = 12 then some (10.8, 3.3, 1.4)
  else if phi = 13 then some (11.4, 3.6, 1.6)
  else if phi = 14 then some (12.1, 4, 1.9)
  else if phi = 15 then some (12.9, 4.4, 2.2)
  else if phi = 16 then some (13.7, 4.9, 2.5)
  else if phi = 17 then some (14.6, 5.5, 2.9)
  else if phi = 18 then some (15.5, 6, 3.3)
  else if phi = 19 then some (16.6, 6.7, 3.8)
  else if phi = 20 then some (17.7, 7.4, 4.4)
  else if phi = 21 then some (18.9, 8.3, 5.1)
  else if phi = 22 then some (20.3, 9.2, 5.9)
  else if phi = 23 then some (21.7, 10.2, 6.8)
  else if phi = 24 then some (23.4, 11.4, 7.9)
  else if phi = 25 then some (25.1, 12.7, 9.2)
  else if phi = 26 then some (27.1, 14.2, 10.7)
  else if phi = 27 then some (29.2, 15.9, 12.5)
  else if phi = 28 then some (31.6, 17.8, 14.6)
  else if phi = 29 then some (34.2, 20, 17.1)
  else if phi = 30 then some (37.2, 22.5, 20.1)
  else if phi = 31 then some (40.4, 25.3, 23.7)
  else if phi = 32 then some (44, 28.5, 28)
  else if phi = 33 then some (48.1, 32.2, 33.3)
  else if phi = 34 then some (52.6, 36.5, 39.6)
  else if phi = 35 then some (57.8, 41.4, 47.3)
  else if phi = 36 then some (63.5, 47.2, 56.7)
  else if phi = 37 then some (70.1, 53.8, 68.1)
  else if phi = 38 then some (77.5, 61.5, 82.3)
  else if phi = 39 then some (86, 70.6, 99.8)
  else if phi = 40 then some (95.7, 81.3, 121.5)
  else if phi = 41 then some (106.8, 93.8, 148.5)
  else none

/-- Shape coefficients `(coef1, coef2, coef3)` from the `switch` on `shape`
(source lines 122-148); an unrecognized shape takes the `default` branch,
which carries the continuous coefficients. -/
def shapeCoefs (shape : String) : ℚ × ℚ × ℚ :=
  if shape = "square" then (1.3, 1, 0.4)
  else if shape = "continuous" then (1, 1, 0.5)
  else if shape = "circular" then (1.3, 1, 0.3)
  else (1, 1, 0.5)

/-- JavaScript `Math.round`: nearest integer, with halves rounded toward
positive infinity. -/
def jsRound (q : ℚ) : ℤ := ⌊q + 1 / 2⌋

/-- Substitution of a missing groundwater depth (source line 97):
`if (!this.groundwaterDepth) this.groundwaterDepth = 2 * (this.depth + this.width)`.
The condition is JavaScript falsiness, so both an absent value
(`undefined`) and a supplied value of `0` are replaced. -/
def resolveGroundwaterDepth (depth width : ℚ) (groundwaterDepth : Option ℚ) : ℚ :=
  match groundwaterDepth with
  | none => 2 * (depth + width)
  | some g => if g = 0 then 2 * (depth + width) else g

/-- Effective unit weight (source lines 100-106), from the substituted
groundwater depth `gw`. -/
def effectiveUnitWeight (depth unitWeight width gw : ℚ) : ℚ :=
  if gw ≤ depth then unitWeight - unitWeightWater
  else if depth < gw ∧ gw < depth + width then
    unitWeight - unitWeightWater * (1 - (gw - depth) / width)
  else
    unitWeight

/-- Effective stress (source lines 109-114).  The branch condition uses the
substituted `this.groundwaterDepth` (`gw`), but the pore pressure term uses
the original constructor parameter `groundwaterDepth`; when that parameter
is absent, the JavaScript subtraction `depth - undefined` is `NaN`,
embedded as `none`. -/
def effectiveStress (depth unitWeight : ℚ) (groundwaterDepth : Option ℚ) (gw : ℚ) : Option ℚ :=
  if depth ≤ gw then some (unitWeight * depth)
  else groundwaterDepth.map fun g => unitWeight * depth - (depth - g) * unitWeightWater

/-- The one way the constructor can fail: the table access
`NTerzaghi[this.phi][0]` throws when `phi` is not a key of the table. -/
inductive TerzaghiError where
  | outOfRange
  deriving DecidableEq

/-- Fields of a constructed `TerzaghiBearingCapacity` instance that carry
numeric content (the `equation` and `calculation` strings are derived
formatting of the same numbers).  `groundwaterDepth` is the value of
`this.groundwaterDepth` after the line-97 substitution.  `bearingCapacity`
and `allowableCapacity` are `none` when the JavaScript value is non-finite
(`NaN` from an absent groundwater parameter in the pore pressure term, or
`Infinity`/`NaN` from division by a zero factor of safety). -/
structure TerzaghiResult where
  groundwaterDepth : ℚ
  effectiveUnitWeight : ℚ
  effectiveStress : Option ℚ
  Nc : ℚ
  Nq : ℚ
  Ng : ℚ
  coef1 : ℚ
  coef2 : ℚ
  coef3 : ℚ
  bearingCapacity : Option ℤ
  allowableCapacity : Option ℤ
  deriving DecidableEq

/-- The calculated values of the constructor (source lines 97-154), given
the looked-up factor triple `n`. -/
def terzaghiResult (cohesion depth unitWeight width : ℚ) (shape : String)
    (groundwaterDepth : Option ℚ) (FS : ℚ) (n : ℚ × ℚ × ℚ) : TerzaghiResult :=
  let gw := resolveGroundwaterDepth depth width groundwaterDepth
  let γe := effectiveUnitWeight depth unitWeight width gw
  let σe := effectiveStress depth unitWeight groundwaterDepth gw
  let c := shapeCoefs shape
  let bearing := σe.map fun σ =>
    jsRound (c.1 * cohesion * n.1 + c.2.1 * σ * n.2.1 + c.2.2 * γe * width * n.2.2)
  let allowable := bearing.bind fun q =>
    if FS = 0 then none else some (jsRound ((q : ℚ) / FS))
  { groundwaterDepth := gw
    effectiveUnitWeight := γe
    effectiveStress := σe
    Nc := n.1
    Nq := n.2.1
    Ng := n.2.2
    coef1 := c.1
    coef2 := c.2.1
    coef3 := c.2.2
    bearingCapacity := bearing
    allowableCapacity := allowable }

/-- The `TerzaghiBearingCapacity` constructor (source lines 86-155).
All assignments before the table access are pure, so the observable
behavior is: throw at `NTerzaghi[this.phi][0]` when `phi` is not a table
key, otherwise produce the calculated values. -/
def TerzaghiBearingCapacity (cohesion phi depth unitWeight width : ℚ) (shape : String)
    (groundwaterDepth : Option ℚ) (FS : ℚ) : Except TerzaghiError TerzaghiResult :=
  match NTerzaghi phi with
  | none => Except.error TerzaghiError.outOfRange
  | some n => Except.ok (terzaghiResult cohesion depth unitWeight width shape groundwaterDepth FS n)

/-! ### Helper lemmas -/

theorem TerzaghiBearingCapacity_ok_iff {c phi D γ B FS : ℚ} {s : String} {gwp : Option ℚ}
    {r : TerzaghiResult} :
    TerzaghiBearingCapacity c phi D γ B s gwp FS = Except.ok r ↔
      ∃ n, NTerzaghi phi = some n ∧ r = terzaghiResult c D γ B s gwp FS n := by
  unfold TerzaghiBearingCapacity
  cases h : NTerzaghi phi with
  | none => simp
  | some n => simp [eq_comm]

theorem terzaghiResult_groundwaterDepth (c D γ B : ℚ) (s : String) (gwp : Option ℚ)
    (FS : ℚ) (n : ℚ × ℚ × ℚ) :
    (terzaghiResult c D γ B s gwp FS n).groundwaterDepth = resolveGroundwaterDepth D B gwp := rfl

theorem terzaghiResult_effectiveUnitWeight (c D γ B : ℚ) (s : String) (gwp : Option ℚ)
    (FS : ℚ) (n : ℚ × ℚ × ℚ) :
    (terzaghiResult c D γ B s gwp FS n).effectiveUnitWeight =
      effectiveUnitWeight D γ B (resolveGroundwaterDepth D B gwp) := rfl

theorem terzaghiResult_effectiveStress (c D γ B : ℚ) (s : String) (gwp : Option ℚ)
    (FS : ℚ) (n : ℚ × ℚ × ℚ) :
    (terzaghiResult c D γ B s gwp FS n).effectiveStress =
      effectiveStress D γ gwp (resolveGroundwaterDepth D B gwp) := rfl

theorem terzaghiResult_Nq (c D γ B : ℚ) (s : String) (gwp : Option ℚ)
    (FS : ℚ) (n : ℚ × ℚ × ℚ) :
    (terzaghiResult c D γ B s gwp FS n).Nq = n.2.1 := rfl

theorem terzaghiResult_coef2 (c D γ B : ℚ) (s : String) (gwp : Option ℚ)
    (FS : ℚ) (n : ℚ × ℚ × ℚ) :
    (terzaghiResult c D γ B s gwp FS n).coef2 = (shapeCoefs s).2.1 := rfl

theorem terzaghiResult_bearingCapacity (c D γ B : ℚ) (s : String) (gwp : Option ℚ)
    (FS : ℚ) (n : ℚ × ℚ × ℚ) :
    (terzaghiResult c D γ B s gwp FS n).bearingCapacity =
      (terzaghiResult c D γ B s gwp FS n).effectiveStress.map (fun σ =>
        jsRound ((terzaghiResult c D γ B s gwp FS n).coef1 * c *
            (terzaghiResult c D γ B s gwp FS n).Nc +
          (terzaghiResult c D γ B s gwp FS n).coef2 * σ *
            (terzaghiResult c D γ B s gwp FS n).Nq +
          (terzaghiResult c D γ B s gwp FS n).coef3 *
            (terzaghiResult c D γ B s gwp FS n).effectiveUnitWeight * B *
            (terzaghiResult c D γ B s gwp FS n).Ng)) := rfl

theorem terzaghiResult_allowableCapacity (c D γ B : ℚ) (s : String) (gwp : Option ℚ)
    (FS : ℚ) (n : ℚ × ℚ × ℚ) :
    (terzaghiResult c D γ B s gwp FS n).allowableCapacity =
      (terzaghiResult c D γ B s gwp FS n).bearingCapacity.bind (fun q =>
        if FS = 0 then none else some (jsRound ((q : ℚ) / FS))) := rfl

theorem shapeCoefs_coef2 (s : String) : (shapeCoefs s).2.1 = 1 := by
  unfold shapeCoefs
  split_ifs <;> rfl

theorem bind_roundDiv_of_ne_zero (o : Option ℤ) (FS : ℚ) (h : FS ≠ 0) :
    (o.bind fun q => if FS = 0 then none else some (jsRound ((q : ℚ) / FS))) =
      o.map fun q => jsRound ((q : ℚ) / FS) := by
  cases o <;> simp [h]

theorem resolveGroundwaterDepth_pos (D B g : ℚ) (hg : g ≠ 0) :
    resolveGroundwaterDepth D B (some g) = g := by
  simp [resolveGroundwaterDepth, hg]

/-! ### Claim theorems -/

/-- C5: for every integer phi in [0,41] the factor lookup returns the fixed
triple recorded in the constant table (in particular it returns a value),
with the published spot checks lookup(0) = (5.7, 1, 0),
lookup(30) = (37.2, 22.5, 20.1) and lookup(41) = (106.8, 93.8, 148.5). -/
theorem terzaghi_factor_table_lookup :
    (∀ n : ℤ, 0 ≤ n → n ≤ 41 → (NTerzaghi (n : ℚ)).isSome = true) ∧
    NTerzaghi 0 = some (5.7, 1, 0) ∧
    NTerzaghi 30 = some (37.2, 22.5, 20.1) ∧
    NTerzaghi 41 = some (106.8, 93.8, 148.5) := by
  refine ⟨?_, rfl, rfl, rfl⟩
  intro n h1 h2
  interval_cases n <;> decide

/-- C5 witness: the lookup succeeds at the concrete integer angle 7. -/
theorem terzaghi_factor_table_lookup_witness : (NTerzaghi ((7 : ℤ) : ℚ)).isSome = true :=
  terzaghi_factor_table_lookup.1 7 (by decide) (by decide)

/-- C6: for every phi that is not an integer in [0,41] the lookup yields no
triple (the JavaScript access `NTerzaghi[phi]` is `undefined`, and the
constructor fails on it with the out-of-range error rather than clamping or
returning a value); in particular the lookup fails for phi = 42 and
phi = -1. -/
theorem terzaghi_factor_lookup_out_of_range :
    (∀ phi : ℚ, ¬(phi.den = 1 ∧ 0 ≤ phi.num ∧ phi.num ≤ 41) → NTerzaghi phi = none) ∧
    NTerzaghi 42 = none ∧
    NTerzaghi (-1) = none ∧
    (∀ c D γ B FS : ℚ, ∀ s : String, ∀ gwp : Option ℚ,
      TerzaghiBearingCapacity c 42 D γ B s gwp FS = Except.error TerzaghiError.outOfRange ∧
      TerzaghiBearingCapacity c (-1) D γ B s gwp FS = Except.error TerzaghiError.outOfRange) := by
  have hnone : ∀ phi : ℚ, ¬(phi.den = 1 ∧ 0 ≤ phi.num ∧ phi.num ≤ 41) → NTerzaghi phi = none := by
    intro phi hno
    unfold NTerzaghi
    have h0 : phi ≠ (0 : ℚ) := by intro h; subst h; exact hno (by decide)
    have h1 : phi ≠ (1 : ℚ) := by intro h; subst h; exact hno (by decide)
    have h2 : phi ≠ (2 : ℚ) := by intro h; subst h; exact hno (by decide)
    have h3 : phi ≠ (3 : ℚ) := by intro h; subst h; exact hno (by decide)
    have h4 : phi ≠ (4 : ℚ) := by intro h; subst h; exact hno (by decide)
    have h5 : phi ≠ (5 : ℚ) := by intro h; subst h; exact hno (by decide)
    have h6 : phi ≠ (6 : ℚ) := by intro h; subst h; exact hno (by decide)
    have h7 : phi ≠ (7 : ℚ) := by intro h; subst h; exact hno (by decide)
    have h8 : phi ≠ (8 : ℚ) := by intro h; subst h; exact hno (by decide)
    have h9 : phi ≠ (9 : ℚ) := by intro h; subst h; exact hno (by decide)
    have h10 : phi ≠ (10 : ℚ) := by intro h; subst h; exact hno (by decide)
    have h11 : phi ≠ (11 : ℚ) := by intro h; subst h; exact hno (by decide)
    have h12 : phi ≠ (12 : ℚ) := by intro h; subst h; exact hno (by decide)
    have h13 : phi ≠ (13 : ℚ) := by intro h; subst h; exact hno (by decide)
    have h14 : phi ≠ (14 : ℚ) := by intro h; subst h; exact hno (by decide)
    have h15 : phi ≠ (15 : ℚ) := by intro h; subst h; exact hno (by decide)
    have h16 : phi ≠ (16 : ℚ) := by intro h; subst h; exact hno (by decide)
    have h17 : phi ≠ (17 : ℚ) := by intro h; subst h; exact hno (by decide)
    have h18 : phi ≠ (18 : ℚ) := by intro h; subst h; exact hno (by decide)
    have h19 : phi ≠ (19 : ℚ) := by intro h; subst h; exact hno (by decide)
    have h20 : phi ≠ (20 : ℚ) := by intro h; subst h; exact hno (by decide)
    have h21 : phi ≠ (21 : ℚ) := by intro h; subst h; exact hno (by decide)
    have h22 : phi ≠ (22 : ℚ) := by intro h; subst h; exact hno (by decide)
    have h23 : phi ≠ (23 : ℚ) := by intro h; subst h; exact hno (by decide)
    have h24 : phi ≠ (24 : ℚ) := by intro h; subst h; exact hno (by decide)
    have h25 : phi ≠ (25 : ℚ) := by intro h; subst h; exact hno (by decide)
    have h26 : phi ≠ (26 : ℚ) := by intro h; subst h; exact hno (by decide)
    have h27 : phi ≠ (27 : ℚ) := by intro h; subst h; exact hno (by decide)
    have h28 : phi ≠ (28 : ℚ) := by intro h; subst h; exact hno (by decide)
    have h29 : phi ≠ (29 : ℚ) := by intro h; subst h; exact hno (by decide)
    have h30 : phi ≠ (30 : ℚ) := by intro h; subst h; exact hno (by decide)
    have h31 : phi ≠ (31 : ℚ) := by intro h; subst h; exact hno (by decide)
    have h32 : phi ≠ (32 : ℚ) := by intro h; subst h; exact hno (by decide)
    have h33 : phi ≠ (33 : ℚ) := by intro h; subst h; exact hno (by decide)
    have h34 : phi ≠ (34 : ℚ) := by intro h; subst h; exact hno (by decide)
    have h35 : phi ≠ (35 : ℚ) := by intro h; subst h; exact hno (by decide)
    have h36 : phi ≠ (36 : ℚ) := by intro h; subst h; exact hno (by decide)
    have h37 : phi ≠ (37 : ℚ) := by intro h; subst h; exact hno (by decide)
    have h38 : phi ≠ (38 : ℚ) := by intro h; subst h; exact hno (by decide)
    have h39 : phi ≠ (39 : ℚ) := by intro h; subst h; exact hno (by decide)
    have h40 : phi ≠ (40 : ℚ) := by intro h; subst h; exact hno (by decide)
    have h41 : phi ≠ (41 : ℚ) := by intro h; subst h; exact hno (by decide)
    rw [if_neg h0, if_neg h1, if_neg h2, if_neg h3, if_neg h4, if_neg h5, if_neg h6, if_neg h7, if_neg h8, if_neg h9, if_neg h10, if_neg h11, if_neg h12, if_neg h13, if_neg h14, if_neg h15, if_neg h16, if_neg h17, if_neg h18, if_neg h19, if_neg h20, if_neg h21, if_neg h22, if_neg h23, if_neg h24, if_neg h25, if_neg h26, if_neg h27, if_neg h28, if_neg h29, if_neg h30, if_neg h31, if_neg h32, if_neg h33, if_neg h34, if_neg h35, if_neg h36, if_neg h37, if_neg h38, if_neg h39, if_neg h40, if_neg h41]
  have h42 : NTerzaghi 42 = none := by decide
  have hm1 : NTerzaghi (-1) = none := by decide
  refine ⟨hnone, h42, hm1, fun c D γ B FS s gwp => ⟨?_, ?_⟩⟩
  · unfold TerzaghiBearingCapacity
    rw [h42]
  · unfold TerzaghiBearingCapacity
    rw [hm1]

/-- C6 witness: the lookup fails at the concrete out-of-range angle 50. -/
theorem terzaghi_factor_lookup_out_of_range_witness : NTerzaghi 50 = none :=
  terzaghi_factor_lookup_out_of_range.1 50 (by decide)

/-- C9: shape resolution yields (1.3, 1, 0.4) for square, (1.3, 1, 0.3) for
circular, (1, 1, 0.5) for continuous, and any unrecognized shape string
resolves to the continuous coefficients without an error; coef2 = 1 for
every shape, and two constructions differing only in the shape agree on the
surcharge factors coef2 and Nq and on the effective stress. -/
theorem terzaghi_shape_coefficients :
    shapeCoefs "square" = (1.3, 1, 0.4) ∧
    shapeCoefs "circular" = (1.3, 1, 0.3) ∧
    shapeCoefs "continuous" = (1, 1, 0.5) ∧
    (∀ s : String, s ≠ "square" → s ≠ "circular" → s ≠ "continuous" →
      shapeCoefs s = (1, 1, 0.5)) ∧
    (∀ s : String, (shapeCoefs s).2.1 = 1) ∧
    (∀ c phi D γ B FS : ℚ, ∀ gwp : Option ℚ, ∀ s₁ s₂ : String, ∀ r₁ r₂ : TerzaghiResult,
      TerzaghiBearingCapacity c phi D γ B s₁ gwp FS = Except.ok r₁ →
      TerzaghiBearingCapacity c phi D γ B s₂ gwp FS = Except.ok r₂ →
      r₁.coef2 = 1 ∧ r₂.coef2 = 1 ∧ r₁.Nq = r₂.Nq ∧
      r₁.effectiveStress = r₂.effectiveStress) := by
  refine ⟨rfl, rfl, rfl, ?_, shapeCoefs_coef2, ?_⟩
  · intro s h1 h2 h3
    unfold shapeCoefs
    rw [if_neg h1, if_neg h3, if_neg h2]
  · intro c phi D γ B FS gwp s₁ s₂ r₁ r₂ h₁ h₂
    obtain ⟨n₁, hn₁, rfl⟩ := TerzaghiBearingCapacity_ok_iff.mp h₁
    obtain ⟨n₂, hn₂, rfl⟩ := TerzaghiBearingCapacity_ok_iff.mp h₂
    have hn : n₁ = n₂ := Option.some.inj (hn₁ ▸ hn₂)
    subst hn
    exact ⟨by rw [terzaghiResult_coef2, shapeCoefs_coef2],
      by rw [terzaghiResult_coef2, shapeCoefs_coef2],
      by rw [terzaghiResult_Nq, terzaghiResult_Nq],
      by rw [terzaghiResult_effectiveStress, terzaghiResult_effectiveStress]⟩

/-- C9 witness: an unrecognized shape string resolves to the continuous
coefficients. -/
theorem terzaghi_shape_coefficients_witness : shapeCoefs "triangle" = (1, 1, 0.5) :=
  terzaghi_shape_coefficients.2.2.2.1 "triangle" (by decide) (by decide) (by decide)

/-- C7: when the groundwater depth is omitted, the engine substitutes
`Dw = 2 * (depth + width)` before the case analysis; in particular, with
depth 3.5 and width 4 the substituted value is 15. -/
theorem terzaghi_groundwater_default :
    (∀ c phi D γ B FS : ℚ, ∀ s : String, ∀ r : TerzaghiResult,
      TerzaghiBearingCapacity c phi D γ B s none FS = Except.ok r →
      r.groundwaterDepth = 2 * (D + B)) ∧
    (TerzaghiBearingCapacity 0 30 3.5 120 4 "continuous" none 3).map
      (fun r => r.groundwaterDepth) = Except.ok 15 := by
  constructor
  · intro c phi D γ B FS s r h
    obtain ⟨n, hn, rfl⟩ := TerzaghiBearingCapacity_ok_iff.mp h
    rw [terzaghiResult_groundwaterDepth]
    rfl
  · with_unfolding_all rfl

/-- C7 witness: the default substitution evaluated at depth 3.5 and
width 4. -/
theorem terzaghi_groundwater_default_witness :
    (terzaghiResult 0 3.5 120 4 "continuous" none 3 (37.2, 22.5, 20.1)).groundwaterDepth =
      2 * (3.5 + 4) :=
  terzaghi_groundwater_default.1 0 30 3.5 120 4 3 "continuous" _ rfl

/-- C8: with the groundwater depth omitted, depth D ≥ 0 and width B > 0,
the substituted depth 2 * (D + B) lies at or beyond both D and D + B, so
the groundwater correction is disabled: the effective unit weight is the
unit weight and the effective stress is unitWeight * D. -/
theorem terzaghi_groundwater_omitted_no_correction
    (c phi D γ B FS : ℚ) (s : String) (r : TerzaghiResult)
    (hD : 0 ≤ D) (hB : 0 < B)
    (h : TerzaghiBearingCapacity c phi D γ B s none FS = Except.ok r) :
    r.groundwaterDepth = 2 * (D + B) ∧
    D + B ≤ r.groundwaterDepth ∧
    D ≤ r.groundwaterDepth ∧
    r.effectiveUnitWeight = γ ∧
    r.effectiveStress = some (γ * D) := by
  obtain ⟨n, hn, rfl⟩ := TerzaghiBearingCapacity_ok_iff.mp h
  have hgw : resolveGroundwaterDepth D B none = 2 * (D + B) := rfl
  rw [terzaghiResult_groundwaterDepth, terzaghiResult_effectiveUnitWeight,
    terzaghiResult_effectiveStress, hgw]
  refine ⟨rfl, by linarith, by linarith, ?_, ?_⟩
  · unfold effectiveUnitWeight
    rw [if_neg (not_le.mpr (by linarith)),
      if_neg (fun hc => absurd hc.2 (not_lt.mpr (by linarith)))]
  · unfold effectiveStress
    rw [if_pos (by linarith)]

/-- C8 witness: the correction is disabled at a concrete omitted-groundwater
input. -/
theorem terzaghi_groundwater_omitted_no_correction_witness :
    (terzaghiResult 0 3 120 4 "continuous" none 3 (37.2, 22.5, 20.1)).groundwaterDepth =
        2 * (3 + 4) ∧
      3 + 4 ≤ (terzaghiResult 0 3 120 4 "continuous" none 3 (37.2, 22.5, 20.1)).groundwaterDepth ∧
      3 ≤ (terzaghiResult 0 3 120 4 "continuous" none 3 (37.2, 22.5, 20.1)).groundwaterDepth ∧
      (terzaghiResult 0 3 120 4 "continuous" none 3 (37.2, 22.5, 20.1)).effectiveUnitWeight = 120 ∧
      (terzaghiResult 0 3 120 4 "continuous" none 3 (37.2, 22.5, 20.1)).effectiveStress =
        some (120 * 3) :=
  terzaghi_groundwater_omitted_no_correction 0 30 3 120 4 3 "continuous" _
    (by norm_num) (by norm_num) rfl

/-- C10: a groundwater depth supplied as exactly 0 is falsy, so the engine
behaves as if it were omitted: the whole constructed result coincides with
the omitted-groundwater result, and (for D ≥ 0, B > 0) the buoyant
reduction never applies. -/
theorem terzaghi_gw_zero_as_omitted
    (c phi D γ B FS : ℚ) (s : String) (hD : 0 ≤ D) (hB : 0 < B) :
    TerzaghiBearingCapacity c phi D γ B s (some 0) FS =
      TerzaghiBearingCapacity c phi D γ B s none FS ∧
    (∀ r : TerzaghiResult, TerzaghiBearingCapacity c phi D γ B s (some 0) FS = Except.ok r →
      r.effectiveUnitWeight = γ ∧ r.effectiveStress = some (γ * D)) := by
  have hgw0 : resolveGroundwaterDepth D B (some 0) = 2 * (D + B) := by
    simp [resolveGroundwaterDepth]
  have hσ : effectiveStress D γ (some 0) (resolveGroundwaterDepth D B (some 0)) =
      effectiveStress D γ none (resolveGroundwaterDepth D B none) := by
    show effectiveStress D γ (some 0) (resolveGroundwaterDepth D B (some 0)) =
      effectiveStress D γ none (2 * (D + B))
    rw [hgw0]
    unfold effectiveStress
    rw [if_pos (by linarith), if_pos (by linarith)]
  have hgwn : resolveGroundwaterDepth D B none = 2 * (D + B) := rfl
  have hres : ∀ n, terzaghiResult c D γ B s (some 0) FS n =
      terzaghiResult c D γ B s none FS n := by
    intro n
    simp only [terzaghiResult]
    rw [hσ, hgw0, hgwn]
  constructor
  · unfold TerzaghiBearingCapacity
    cases NTerzaghi phi with
    | none => rfl
    | some n => exact congrArg Except.ok (hres n)
  · intro r h
    obtain ⟨n, hn, rfl⟩ := TerzaghiBearingCapacity_ok_iff.mp h
    rw [terzaghiResult_effectiveUnitWeight, terzaghiResult_effectiveStress, hgw0]
    constructor
    · unfold effectiveUnitWeight
      rw [if_neg (not_le.mpr (by linarith)),
        if_neg (fun hc => absurd hc.2 (not_lt.mpr (by linarith)))]
    · rw [show effectiveStress D γ (some 0) (2 * (D + B)) =
        some (γ * D) from by unfold effectiveStress; rw [if_pos (by linarith)]]

/-- C10 witness: supplying groundwater depth 0 gives the same constructed
value as omitting it, at a concrete input. -/
theorem terzaghi_gw_zero_as_omitted_witness :
    TerzaghiBearingCapacity 0 30 3 120 4 "continuous" (some 0) 3 =
      TerzaghiBearingCapacity 0 30 3 120 4 "continuous" none 3 :=
  (terzaghi_gw_zero_as_omitted 0 30 3 120 4 3 "continuous" (by norm_num) (by norm_num)).1

/-- C2 counterexample: at cohesion 0, phi 30, depth 3, unit weight 120,
width 4, groundwater depth supplied as 0 and FS 3, the claimed first-branch
rule (Dw = 0 ≤ D = 3, hence effectiveUnitWeight = 120 - 62.4) disagrees
with the code, which treats the falsy 0 as an omitted value and yields
effectiveUnitWeight = 120. -/
theorem terzaghi_gw_zero_unit_weight_counterexample :
    (TerzaghiBearingCapacity 0 30 3 120 4 "continuous" (some 0) 3).map
      (fun r => r.effectiveUnitWeight) = Except.ok 120 ∧
    (120 : ℚ) ≠ 120 - 62.4 := by
  constructor
  · with_unfolding_all rfl
  · norm_num

/-- C2 (amended): for a supplied groundwater depth Dw > 0 (a supplied 0 is
treated as omitted) and width B > 0, the effective unit weight follows the
three-case rule on Dw relative to D and B, with the boundary Dw = D in the
first branch. -/
theorem terzaghi_effective_unit_weight_cases
    (c phi D γ B FS g : ℚ) (s : String) (r : TerzaghiResult)
    (hB : 0 < B) (hg : 0 < g)
    (h : TerzaghiBearingCapacity c phi D γ B s (some g) FS = Except.ok r) :
    (g ≤ D → r.effectiveUnitWeight = γ - 62.4) ∧
    (D < g → g < D + B → r.effectiveUnitWeight = γ - 62.4 * (1 - (g - D) / B)) ∧
    (D + B ≤ g → r.effectiveUnitWeight = γ) := by
  obtain ⟨n, hn, rfl⟩ := TerzaghiBearingCapacity_ok_iff.mp h
  rw [terzaghiResult_effectiveUnitWeight, resolveGroundwaterDepth_pos D B g hg.ne']
  unfold effectiveUnitWeight unitWeightWater
  refine ⟨fun h1 => ?_, fun h1 h2 => ?_, fun h1 => ?_⟩
  · rw [if_pos h1]
  · rw [if_neg (not_le.mpr h1), if_pos ⟨h1, h2⟩]
  · rw [if_neg (not_le.mpr (by linarith)),
      if_neg (fun hc => absurd hc.2 (not_lt.mpr h1))]

/-- C2 witness: a supplied groundwater depth 2 at or above the foundation
level (depth 3) puts the first branch in effect. -/
theorem terzaghi_effective_unit_weight_cases_witness :
    (terzaghiResult 0 3 120 4 "continuous" (some 2) 3 (37.2, 22.5, 20.1)).effectiveUnitWeight =
      120 - 62.4 :=
  (terzaghi_effective_unit_weight_cases 0 30 3 120 4 3 2 "continuous" _
    (by norm_num) (by norm_num) rfl).1 (by norm_num)

/-- C3 counterexample: at cohesion 0, phi 30, depth 3, unit weight 120,
width 4, groundwater depth supplied as 0 and FS 3, the claimed second-branch
rule (Dw = 0 < D = 3, hence effectiveStress = 120*3 - (3-0)*62.4 = 172.8)
disagrees with the code, which treats the falsy 0 as an omitted value and
yields effectiveStress = 360. -/
theorem terzaghi_gw_zero_stress_counterexample :
    (TerzaghiBearingCapacity 0 30 3 120 4 "continuous" (some 0) 3).map
      (fun r => r.effectiveStress) = Except.ok (some 360) ∧
    some (360 : ℚ) ≠ some (120 * 3 - (3 - 0) * 62.4) := by
  constructor
  · with_unfolding_all rfl
  · simp only [ne_eq, Option.some.injEq]
    norm_num

/-- C3 (amended): for a supplied groundwater depth Dw > 0 (a supplied 0 is
treated as omitted), the effective stress follows the two-case rule, with
the boundary Dw = D in the no-pore-pressure branch. -/
theorem terzaghi_effective_stress_cases
    (c phi D γ B FS g : ℚ) (s : String) (r : TerzaghiResult)
    (hg : 0 < g)
    (h : TerzaghiBearingCapacity c phi D γ B s (some g) FS = Except.ok r) :
    (D ≤ g → r.effectiveStress = some (γ * D)) ∧
    (g < D → r.effectiveStress = some (γ * D - (D - g) * 62.4)) := by
  obtain ⟨n, hn, rfl⟩ := TerzaghiBearingCapacity_ok_iff.mp h
  rw [terzaghiResult_effectiveStress, resolveGroundwaterDepth_pos D B g hg.ne']
  unfold effectiveStress unitWeightWater
  refine ⟨fun h1 => ?_, fun h1 => ?_⟩
  · rw [if_pos h1]
  · rw [if_neg (not_le.mpr h1)]
    rfl

/-- C3 witness: a supplied groundwater depth 2 above the foundation depth 3
puts the pore-pressure branch in effect. -/
theorem terzaghi_effective_stress_cases_witness :
    (terzaghiResult 0 3 120 4 "continuous" (some 2) 3 (37.2, 22.5, 20.1)).effectiveStress =
      some (120 * 3 - (3 - 2) * 62.4) :=
  (terzaghi_effective_stress_cases 0 30 3 120 4 3 2 "continuous" _
    (by norm_num) rfl).2 (by norm_num)

/-- C4: for every successfully constructed result, the ultimate bearing
capacity is the rounded shape-weighted superposition of the cohesion,
surcharge and unit-weight terms, and for FS ≠ 0 the allowable capacity is
the rounded quotient of the already-rounded ultimate value by FS; with
cohesion 0, phi 30, depth 3, unit weight 120, width 4, continuous shape,
groundwater omitted and FS 3 the engine returns 12924 and 4308. -/
theorem terzaghi_superposition_formula :
    (∀ c phi D γ B FS : ℚ, ∀ s : String, ∀ gwp : Option ℚ, ∀ r : TerzaghiResult,
      TerzaghiBearingCapacity c phi D γ B s gwp FS = Except.ok r →
      r.bearingCapacity = r.effectiveStress.map (fun σ =>
        jsRound (r.coef1 * c * r.Nc + r.coef2 * σ * r.Nq +
          r.coef3 * r.effectiveUnitWeight * B * r.Ng)) ∧
      (FS ≠ 0 → r.allowableCapacity =
        r.bearingCapacity.map (fun q => jsRound ((q : ℚ) / FS)))) ∧
    (TerzaghiBearingCapacity 0 30 3 120 4 "continuous" none 3).map
      (fun r => (r.bearingCapacity, r.allowableCapacity)) =
      Except.ok (some 12924, some 4308) := by
  constructor
  · intro c phi D γ B FS s gwp r h
    obtain ⟨n, hn, rfl⟩ := TerzaghiBearingCapacity_ok_iff.mp h
    refine ⟨terzaghiResult_bearingCapacity c D γ B s gwp FS n, fun hFS => ?_⟩
    rw [terzaghiResult_allowableCapacity,
      bind_roundDiv_of_ne_zero _ FS hFS]
  · with_unfolding_all rfl

/-- C4 witness: the allowable capacity is the rounded quotient of the
rounded ultimate capacity at the concrete end-to-end input. -/
theorem terzaghi_superposition_formula_witness :
    (terzaghiResult 0 3 120 4 "continuous" none 3 (37.2, 22.5, 20.1)).allowableCapacity =
      (terzaghiResult 0 3 120 4 "continuous" none 3 (37.2, 22.5, 20.1)).bearingCapacity.map
        (fun q => jsRound ((q : ℚ) / 3)) :=
  (terzaghi_superposition_formula.1 0 30 3 120 4 3 "continuous" none _ rfl).2 (by norm_num)

/-- C1 counterexample: with FS = 0 (cohesion 0, phi 30, depth 3, unit
weight 120, width 4, continuous shape, groundwater omitted) the engine does
not fail: it returns a constructed result whose ultimate capacity is 12924
and whose allowable capacity is the non-finite JavaScript value
`Math.round(12924 / 0) = Infinity`, embedded as `none`. -/
theorem terzaghi_fs_zero_counterexample :
    (TerzaghiBearingCapacity 0 30 3 120 4 "continuous" none 0).map
      (fun r => (r.bearingCapacity, r.allowableCapacity)) =
      Except.ok (some 12924, none) := by
  with_unfolding_all rfl

/-- C1 (amended): the constructor contains no factor-of-safety guard and no
`InvalidFactorOfSafetyError`: for every input whose friction angle is a
table key, FS ≤ 0 included, it returns a result; when FS = 0 the allowable
capacity is the non-finite `Infinity`/`NaN` (embedded as `none`), and when
FS < 0 it is the silently wrong finite value round(ultimate / FS). -/
theorem terzaghi_no_fs_guard
    (c phi D γ B FS : ℚ) (s : String) (gwp : Option ℚ) (n : ℚ × ℚ × ℚ)
    (hn : NTerzaghi phi = some n) (hFS : FS ≤ 0) :
    TerzaghiBearingCapacity c phi D γ B s gwp FS =
      Except.ok (terzaghiResult c D γ B s gwp FS n) ∧
    (FS = 0 → (terzaghiResult c D γ B s gwp FS n).allowableCapacity = none) ∧
    (FS < 0 → (terzaghiResult c D γ B s gwp FS n).allowableCapacity =
      (terzaghiResult c D γ B s gwp FS n).bearingCapacity.map
        (fun q => jsRound ((q : ℚ) / FS))) := by
  refine ⟨?_, ?_, ?_⟩
  · unfold TerzaghiBearingCapacity
    rw [hn]
  · intro h0
    subst h0
    rw [terzaghiResult_allowableCapacity]
    cases (terzaghiResult c D γ B s gwp 0 n).bearingCapacity <;> simp
  · intro hneg
    rw [terzaghiResult_allowableCapacity, bind_roundDiv_of_ne_zero _ FS (ne_of_lt hneg)]

/-- C1 witness: at FS = -2 the constructor succeeds. -/
theorem terzaghi_no_fs_guard_witness :
    TerzaghiBearingCapacity 0 30 3 120 4 "continuous" none (-2) =
      Except.ok (terzaghiResult 0 3 120 4 "continuous" none (-2) (37.2, 22.5, 20.1)) :=
  (terzaghi_no_fs_guard 0 30 3 120 4 (-2) "continuous" none (37.2, 22.5, 20.1)
    rfl (by norm_num)).1
